import Mathlib

set_option maxRecDepth 80000

/-!
Shallow embedding of `setup_cli.py` from the dotfile_scripts repository.

The script is a sequential machine-provisioning tool.  Its observable
behaviour is a sequence of effects: lines printed to standard output or
standard error, shell commands executed through `subprocess.run` (with an
optional string fed to standard input and an optional working directory),
read-only probe commands executed through `subprocess.call`, and possibly a
call to `sys.exit`.  We model each Python function as a pure Lean function
from the host state (results of filesystem and environment probes), a
result oracle for executed commands, the dry-run flag and the optional
password to an `Outcome`: the effect trace, whether `sys.exit` was reached,
and the value returned to the caller.
-/

namespace SetupCli

/-- Python `str.startswith` / `str.endswith` helper on character lists:
`prefixChars p s` is true when `p` is a prefix of `s`. -/
def prefixChars : List Char → List Char → Bool
  | [], _ => true
  | _ :: _, [] => false
  | a :: as, b :: bs => a = b && prefixChars as bs

/-- Substring occurrence on character lists (Python `in` on strings). -/
def containsChars (pat : List Char) : List Char → Bool
  | [] => pat.isEmpty
  | c :: rest => prefixChars pat (c :: rest) || containsChars pat rest

/-- Python `pat in s` (substring test). -/
def strContains (s pat : String) : Bool :=
  containsChars pat.data s.data

/-- Python `s.startswith(pre)`. -/
def strStarts (s pre : String) : Bool :=
  prefixChars pre.data s.data

/-- Python `s.endswith(suf)`. -/
def strEnds (s suf : String) : Bool :=
  prefixChars suf.data.reverse s.data.reverse

/-- Whitespace characters removed by Python `str.strip`. -/
def isSpaceChar (c : Char) : Bool :=
  c = ' ' || c = '\t' || c = '\n' || c = '\r' || c = '\x0b' || c = '\x0c'

/-- Drop leading whitespace from a character list. -/
def dropLeading : List Char → List Char
  | [] => []
  | c :: rest => if isSpaceChar c then dropLeading rest else c :: rest

/-- Python `s.strip()`. -/
def pyStrip (s : String) : String :=
  ⟨(dropLeading ((dropLeading s.data).reverse)).reverse⟩

/-- Replace each space by `%20`, as `font_file.replace(" ", "%20")` does. -/
def encodeSpaces : List Char → List Char
  | [] => []
  | c :: rest =>
    if c = ' ' then '%' :: '2' :: '0' :: encodeSpaces rest
    else c :: encodeSpaces rest

/-- Python `s.replace(" ", "%20")` used for the font download URLs. -/
def urlEncodeSpaces (s : String) : String :=
  ⟨encodeSpaces s.data⟩

/-- One observable effect of the script. -/
inductive Effect where
  | outLine (s : String) : Effect
  | errLine (s : String) : Effect
  | exec (command : String) (stdinData : Option String) (dirPath : Option String) : Effect
  | probe (command : String) : Effect
deriving DecidableEq

/-- Whether an effect is an execution of a (potentially mutating) command
through `subprocess.run` inside `run`. -/
def Effect.isExec : Effect → Bool
  | Effect.exec _ _ _ => true
  | _ => false

/-- The commands executed (through `run`) in a trace, in order. -/
def execCmds (t : List Effect) : List String :=
  t.filterMap (fun e =>
    match e with
    | Effect.exec c _ _ => some c
    | _ => none)

/-- All lines printed (to standard output or standard error) in a trace. -/
def printedLines (t : List Effect) : List String :=
  t.filterMap (fun e =>
    match e with
    | Effect.outLine s => some s
    | Effect.errLine s => some s
    | _ => none)

/-- The lines printed to standard error in a trace. -/
def errLines (t : List Effect) : List String :=
  t.filterMap (fun e =>
    match e with
    | Effect.errLine s => some s
    | _ => none)

/-- Result of a shell command: exit status and captured output streams. -/
structure CmdResult where
  exitCode : Nat
  stdout : String
  stderr : String
deriving DecidableEq

/-- Result oracle: what `subprocess.run` reports for a given command,
standard-input payload and working directory. -/
abbrev Oracle := String → Option String → Option String → CmdResult

/-- Outcome of running a piece of the script: the effect trace, the exit
code when `sys.exit` was reached, and the value returned to the caller. -/
structure Outcome where
  trace : List Effect
  exited : Option Nat
  returned : Option String
deriving DecidableEq

/-- The empty outcome (Python `return None` with no effects). -/
def retNone : Outcome :=
  { trace := [], exited := none, returned := none }

/-- A single `print(s)` to standard output. -/
def printOut (s : String) : Outcome :=
  { trace := [Effect.outLine s], exited := none, returned := none }

/-- A single `print(s, file=sys.stderr)`. -/
def printErr (s : String) : Outcome :=
  { trace := [Effect.errLine s], exited := none, returned := none }

/-- Sequential composition: if the first part called `sys.exit`, the second
part never runs. -/
def andThen (a b : Outcome) : Outcome :=
  match a.exited with
  | some _ => a
  | none =>
    { trace := a.trace ++ b.trace, exited := b.exited, returned := b.returned }

/-- Python `for` loop over a list, with `sys.exit` cutting the loop short. -/
def forEach : List α → (α → Outcome) → Outcome
  | [], _ => retNone
  | x :: rest, f => andThen (f x) (forEach rest f)

/-- `dir_path if dir_path else os.getcwd()` from the dry-run print. -/
def dirOrCwd (dirPath : Option String) (cwd : String) : String :=
  match dirPath with
  | some d => if d = "" then cwd else d
  | none => cwd

/-- The command actually passed to `subprocess.run` by `run`: for a truthy
password and a `sudo`-prefixed command the password is interpolated into an
`echo … | sudo -S …` pipeline; otherwise the command is unchanged. -/
def effectiveCommand (command : String) (password : Option String) : String :=
  match password with
  | none => command
  | some pw =>
    if pw = "" then command
    else if strStarts command "sudo" then
      "echo " ++ pw ++ " | sudo -S " ++ command
    else command

/-- The `input=` payload passed to `subprocess.run` by `run`: for a truthy
password and a non-`sudo` command containing `chsh`, the password followed
by a newline; otherwise nothing. -/
def effectiveInput (command : String) (password : Option String) : Option String :=
  match password with
  | none => none
  | some pw =>
    if pw = "" then none
    else if strStarts command "sudo" then none
    else if strContains command "chsh" then some (pw ++ "\n")
    else none

/-- Model of `run(command, error_message, dry_run, password, dir_path)`
from `setup_cli.py`.  In dry-run mode it only prints the intended command.
Otherwise it executes the (password-adjusted) command; on exit status zero
it prints the stripped captured standard output when non-empty and returns
`None`; on a non-zero status it prints the failure report to standard error
and calls `sys.exit(1)`. -/
def run (o : Oracle) (command : String) (errorMessage : Option String)
    (dryRun : Bool) (password : Option String) (dirPath : Option String)
    (cwd : String) : Outcome :=
  if dryRun then
    { trace := [Effect.outLine ("[Dry Run] Would execute: " ++ command ++ " in " ++ dirOrCwd dirPath cwd)],
      exited := none, returned := none }
  else
    let cmd := effectiveCommand command password
    let inp := effectiveInput command password
    let result := o cmd inp dirPath
    if result.exitCode = 0 then
      { trace := Effect.exec cmd inp dirPath ::
          (if result.stdout = "" then [] else [Effect.outLine (pyStrip result.stdout)]),
        exited := none, returned := none }
    else
      { trace := Effect.exec cmd inp dirPath ::
          ((match errorMessage with
            | some m => [Effect.errLine ("Error: " ++ m)]
            | none => []) ++
           [Effect.errLine ("Command \x27" ++ cmd ++ "\x27 failed with exit code " ++ toString result.exitCode ++ ".")] ++
           (if result.stdout = "" then [] else [Effect.errLine ("Stdout:\n" ++ pyStrip result.stdout)]) ++
           (if result.stderr = "" then [] else [Effect.errLine ("Stderr:\n" ++ pyStrip result.stderr)])),
        exited := some 1, returned := none }

/-- Host state: results of the filesystem, environment and command-presence
probes the script performs. -/
structure Host where
  commandAvailable : String → Bool
  pathExists : String → Bool
  isDir : String → Bool
  accessXOk : String → Bool
  shellEnv : Option String
  userInDockerGroup : Bool
  home : String
  scriptDir : String
  cwd : String

/-- Boolean result of `is_command_available` (exit status of
`command -v {command}` run through `subprocess.call`). -/
def is_command_available (h : Host) (command : String) : Bool :=
  h.commandAvailable command

/-- The probe effect produced by `is_command_available`: it shells out even
in dry-run mode, but only reads host state. -/
def commandProbe (command : String) : Outcome :=
  { trace := [Effect.probe ("command -v " ++ command)], exited := none, returned := none }

/-- The probe effect of the `groups | grep -q docker` membership check in
`install_docker` (also run through `subprocess`, read-only). -/
def groupsProbe : Outcome :=
  { trace := [Effect.probe ("groups | grep -q docker")], exited := none, returned := none }

/-- `SHELL` is set and ends with `zsh` (the condition under which the
`chsh` command is skipped in `setup_oh_my_zsh`). -/
def shellIsZsh : Option String → Bool
  | none => false
  | some s => strEnds s "zsh"

/-- `install_rust` from `setup_cli.py`. -/
def install_rust (h : Host) (o : Oracle) (dryRun : Bool) (password : Option String) : Outcome :=
  andThen (printOut ("--- Installing Rust ---"))
  (andThen (commandProbe ("rustc"))
  (if is_command_available h "rustc" then
    printOut ("Rust is already installed.")
  else
    andThen (printOut ("Downloading and installing Rust..."))
    (andThen (run o ("curl --proto \x27=https\x27 --tlsv1.2 -sSf https://sh.rustup.rs | sh -s -- -y")
        (some ("Failed to install Rust.")) dryRun password none h.cwd)
    (printOut ("Rust installation command issued.")))))

/-- The part of `setup_oh_my_zsh` that decides about `chsh`. -/
def chshBlock (h : Host) (o : Oracle) (dryRun : Bool) (password : Option String) : Outcome :=
  if shellIsZsh h.shellEnv then
    printOut ("Zsh is already the default shell.")
  else
    andThen (printOut ("Setting Zsh as default shell..."))
    (andThen (run o ("chsh -s $(which zsh)") (some ("Failed to set Zsh as default shell.")) dryRun password none h.cwd)
    (if dryRun then retNone
     else
       andThen (printOut ("\n------------------------------------------------------------"))
       (andThen (printOut ("IMPORTANT: Zsh has been set as your default shell."))
       (andThen (printOut ("For this change to take full effect, you MUST log out of your current session"))
       (andThen (printOut ("and log back in. New terminals opened before logging out will still use your old shell."))
       (printOut ("------------------------------------------------------------")))))))

/-- `setup_oh_my_zsh` from `setup_cli.py`. -/
def setup_oh_my_zsh (h : Host) (o : Oracle) (dryRun : Bool) (password : Option String) : Outcome :=
  andThen (printOut ("--- Setting up Oh My Zsh ---"))
  (andThen (commandProbe ("zsh"))
  (andThen
    (if is_command_available h "zsh" then
      printOut ("Zsh is already installed.")
    else
      andThen (printOut ("Zsh not found. Installing Zsh..."))
      (run o ("sudo apt update && sudo apt install -y zsh") (some ("Failed to install Zsh.")) dryRun password none h.cwd))
  (andThen
    (if h.pathExists (h.home ++ "/.oh-my-zsh") then
      printOut ("Oh My Zsh is already installed.")
    else
      andThen (printOut ("Installing Oh My Zsh..."))
      (andThen (run o ("sh -c \"$(curl -fsSL https://raw.github.com/ohmyzsh/ohmyzsh/master/tools/install.sh)\" \"\" --unattended")
          (some ("Failed to install Oh My Zsh.")) dryRun password none h.cwd)
      (printOut ("Oh My Zsh installation command issued."))))
  (chshBlock h o dryRun password))))

/-- `~/.nvm` as computed in `install_gemini_cli`. -/
def nvm_dir (h : Host) : String := h.home ++ "/.nvm"

/-- `~/.nvm/nvm.sh` as computed in `install_gemini_cli`. -/
def nvm_sh (h : Host) : String := nvm_dir h ++ "/nvm.sh"

/-- The `NVM_SOURCE_CMD` prefix built in `install_gemini_cli`. -/
def nvm_source_cmd (h : Host) : String :=
  "export NVM_DIR=\"" ++ nvm_dir h ++ "\" && [ -s \"" ++ nvm_sh h ++ "\" ] && . \"" ++ nvm_sh h ++ "\" && "

/-- `install_gemini_cli` from `setup_cli.py`. -/
def install_gemini_cli (h : Host) (o : Oracle) (dryRun : Bool) (password : Option String) : Outcome :=
  andThen (printOut ("--- Setting up Gemini CLI ---"))
  (andThen
    (if h.pathExists (nvm_sh h) then
      printOut ("NVM is already installed.")
    else
      andThen (printOut ("NVM not found. Installing NVM..."))
      (andThen (run o ("curl -o- https://raw.githubusercontent.com/nvm-sh/nvm/v0.39.7/install.sh | bash")
          (some ("Failed to install NVM.")) dryRun none none h.cwd)
      (if dryRun then retNone
       else printOut ("NVM installation command issued. Attempting to source NVM for current session..."))))
  (andThen (printOut ("Installing Node.js (LTS) using NVM..."))
  (andThen (run o (nvm_source_cmd h ++ "nvm install --lts") (some ("Failed to install Node.js LTS.")) dryRun none none h.cwd)
  (andThen (printOut ("Setting Node.js (LTS) as default using NVM..."))
  (andThen (run o (nvm_source_cmd h ++ "nvm use --lts") (some ("Failed to set Node.js LTS as default.")) dryRun none none h.cwd)
  (andThen (printOut ("Installing @google/gemini-cli globally..."))
  (andThen (commandProbe ("gemini"))
  (if is_command_available h "gemini" then
    printOut ("@google/gemini-cli is already installed.")
  else
    andThen (run o (nvm_source_cmd h ++ "npm install -g @google/gemini-cli")
        (some ("Failed to install @google/gemini-cli.")) dryRun none none h.cwd)
    (printOut ("Gemini CLI setup command issued."))))))))))

/-- `install_stow` from `setup_cli.py`. -/
def install_stow (h : Host) (o : Oracle) (dryRun : Bool) (password : Option String) : Outcome :=
  andThen (printOut ("--- Installing GNU Stow ---"))
  (andThen (commandProbe ("stow"))
  (if is_command_available h "stow" then
    printOut ("GNU Stow is already installed.")
  else
    andThen (printOut ("Installing GNU Stow..."))
    (andThen (run o ("sudo apt update && sudo apt install -y stow") (some ("Failed to install GNU Stow.")) dryRun password none h.cwd)
    (printOut ("GNU Stow installation command issued.")))))

/-- `~/.oh-my-zsh/custom/themes/powerlevel10k`. -/
def p10k_dir (h : Host) : String := h.home ++ "/.oh-my-zsh/custom/themes/powerlevel10k"

/-- `install_powerlevel10k` from `setup_cli.py`. -/
def install_powerlevel10k (h : Host) (o : Oracle) (dryRun : Bool) (password : Option String) : Outcome :=
  andThen (printOut ("--- Installing Powerlevel10k ---"))
  (if h.pathExists (p10k_dir h) then
    printOut ("Powerlevel10k is already installed.")
  else
    andThen (printOut ("Cloning Powerlevel10k repository..."))
    (andThen (run o ("git clone --depth=1 https://github.com/romkatv/powerlevel10k.git " ++ p10k_dir h)
        (some ("Failed to clone Powerlevel10k repository.")) dryRun password none h.cwd)
    (printOut ("Powerlevel10k cloning command issued."))))

/-- `~/.oh-my-zsh/custom/plugins`. -/
def plugins_dir (h : Host) : String := h.home ++ "/.oh-my-zsh/custom/plugins"

/-- The `plugins_to_install` dictionary from `install_oh_my_zsh_plugins`. -/
def plugins_to_install : List (String × String) :=
  [("zsh-syntax-highlighting", "https://github.com/zsh-users/zsh-syntax-highlighting.git"),
   ("zsh-autosuggestions", "https://github.com/zsh-users/zsh-autosuggestions"),
   ("zsh-vi-mode", "https://github.com/jeffreytse/zsh-vi-mode.git")]

/-- `install_oh_my_zsh_plugins` from `setup_cli.py`. -/
def install_oh_my_zsh_plugins (h : Host) (o : Oracle) (dryRun : Bool) (password : Option String) : Outcome :=
  andThen (printOut ("--- Installing Oh My Zsh Plugins ---"))
  (andThen (run o ("mkdir -p " ++ plugins_dir h) none dryRun none none h.cwd)
  (andThen (forEach plugins_to_install (fun p =>
    if h.pathExists (plugins_dir h ++ "/" ++ p.1) then
      printOut (p.1 ++ " is already installed.")
    else
      andThen (printOut ("Cloning " ++ p.1 ++ " repository..."))
      (andThen (run o ("git clone --depth=1 " ++ p.2 ++ " " ++ (plugins_dir h ++ "/" ++ p.1))
          (some ("Failed to clone " ++ p.1 ++ " repository.")) dryRun password none h.cwd)
      (printOut (p.1 ++ " cloning command issued.")))))
  (printOut ("Oh My Zsh plugin installation commands issued."))))

/-- `~/.fzf`. -/
def fzf_dir (h : Host) : String := h.home ++ "/.fzf"

/-- `install_fzf` from `setup_cli.py`. -/
def install_fzf (h : Host) (o : Oracle) (dryRun : Bool) (password : Option String) : Outcome :=
  andThen (printOut ("--- Installing fzf ---"))
  (if h.pathExists (fzf_dir h) then
    printOut ("fzf is already installed in ~/.fzf.")
  else
    andThen (printOut ("Cloning fzf repository..."))
    (andThen (run o ("git clone --depth 1 https://github.com/junegunn/fzf.git " ++ fzf_dir h)
        (some ("Failed to clone fzf repository.")) dryRun password none h.cwd)
    (andThen (printOut ("Running fzf install script..."))
    (andThen (run o (fzf_dir h ++ "/install --key-bindings --completion --no-update-rc")
        (some ("Failed to run fzf install script.")) dryRun password none h.cwd)
    (printOut ("fzf installation command issued."))))))

/-- The dotfiles directory, a sibling `dotfiles` of the script. -/
def dotfiles_path (h : Host) : String := h.scriptDir ++ "/dotfiles"

/-- `dotfiles/zshrc`. -/
def zshrc_package_path (h : Host) : String := dotfiles_path h ++ "/zshrc"

/-- `dotfiles/git`. -/
def git_package_path (h : Host) : String := dotfiles_path h ++ "/git"

/-- `dotfiles/astronvim`. -/
def astronvim_package_path (h : Host) : String := dotfiles_path h ++ "/astronvim"

/-- `~/.config/nvim`. -/
def nvim_config_target_dir (h : Host) : String := h.home ++ "/.config/nvim"

/-- `setup_dotfiles_with_stow` from `setup_cli.py`. -/
def setup_dotfiles_with_stow (h : Host) (o : Oracle) (dryRun : Bool) (password : Option String) : Outcome :=
  andThen (printOut ("--- Setting up Dotfiles with Stow ---"))
  (andThen (install_stow h o dryRun password)
  (if h.isDir (dotfiles_path h) = false then
    printErr ("Error: Dotfiles directory not found at " ++ dotfiles_path h)
  else
    andThen (printOut ("Stowing dotfiles from " ++ dotfiles_path h ++ "..."))
    (andThen (printOut ("Stowing p10k configuration..."))
    (andThen (run o ("stow -R -t ~ p10k") (some ("Failed to stow p10k.")) dryRun password (some (dotfiles_path h)) h.cwd)
    (andThen
      (if h.isDir (zshrc_package_path h) then
        andThen (printOut ("Stowing zshrc configuration..."))
        (run o ("stow -R -t ~ zshrc") (some ("Failed to stow zshrc.")) dryRun password (some (dotfiles_path h)) h.cwd)
      else
        printOut ("Skipping zshrc stow: \x27" ++ zshrc_package_path h ++ "\x27 not found. Create this directory with your .zshrc inside to stow it."))
    (andThen
      (if h.isDir (git_package_path h) then
        andThen (printOut ("Stowing git configuration..."))
        (run o ("stow -R -t ~ git") (some ("Failed to stow git.")) dryRun password (some (dotfiles_path h)) h.cwd)
      else
        printOut ("Skipping git stow: \x27" ++ git_package_path h ++ "\x27 not found."))
    (andThen
      (if h.isDir (astronvim_package_path h) then
        andThen (printOut ("Stowing astronvim configuration..."))
        (andThen
          (if h.pathExists (nvim_config_target_dir h) then retNone
           else
             andThen (printOut ("Creating directory: " ++ nvim_config_target_dir h))
             (run o ("mkdir -p " ++ nvim_config_target_dir h) none dryRun none none h.cwd))
        (run o ("stow -R -t ~/.config/nvim astronvim") (some ("Failed to stow astronvim.")) dryRun password (some (dotfiles_path h)) h.cwd))
      else
        printOut ("Skipping astronvim stow: \x27" ++ astronvim_package_path h ++ "\x27 not found. Create this directory with your AstroNvim config inside to stow it to ~/.config/nvim."))
    (printOut ("Dotfiles stowage commands issued.")))))))))

/-- `~/software`. -/
def software_dir (h : Host) : String := h.home ++ "/software"

/-- `~/software/nvim`. -/
def nvim_appimage_path (h : Host) : String := software_dir h ++ "/nvim"

/-- `install_nvim_and_astronvim` from `setup_cli.py`. -/
def install_nvim_and_astronvim (h : Host) (o : Oracle) (dryRun : Bool) (password : Option String) : Outcome :=
  andThen (printOut ("--- Setting up Neovim ---"))
  (andThen (commandProbe ("git"))
  (andThen
    (if is_command_available h "git" then
      printOut ("Git is already installed.")
    else
      andThen (printOut ("Git not found. Installing Git..."))
      (run o ("sudo apt update && sudo apt install -y git") (some ("Failed to install Git.")) dryRun password none h.cwd))
  (andThen
    (if h.pathExists (nvim_appimage_path h) && h.accessXOk (nvim_appimage_path h) then
      printOut ("Neovim AppImage is already installed and executable in ~/software/nvim.")
    else
      andThen (printOut ("Downloading and installing latest stable Neovim AppImage from GitHub..."))
      (andThen (run o ("mkdir -p " ++ software_dir h) none dryRun none none h.cwd)
      (andThen (run o ("curl -L https://github.com/neovim/neovim/releases/latest/download/nvim-linux-x86_64.appimage -o " ++ nvim_appimage_path h)
          (some ("Failed to download Neovim AppImage.")) dryRun none none h.cwd)
      (andThen (run o ("chmod +x " ++ nvim_appimage_path h) (some ("Failed to make Neovim AppImage executable.")) dryRun none none h.cwd)
      (printOut ("Neovim AppImage installed from GitHub release."))))))
  (printOut ("Neovim and Git setup commands issued.")))))

/-- `~/.local/share/fonts/MesloLGS NF`. -/
def font_dir (h : Host) : String := h.home ++ "/.local/share/fonts/MesloLGS NF"

/-- The four font file names from `install_nerd_font`. -/
def font_files : List String :=
  ["MesloLGS NF Regular.ttf",
   "MesloLGS NF Bold.ttf",
   "MesloLGS NF Italic.ttf",
   "MesloLGS NF Bold Italic.ttf"]

/-- The `all_fonts_exist` computation from `install_nerd_font`: the font
directory exists and every font file exists inside it. -/
def all_fonts_exist (h : Host) : Bool :=
  if h.isDir (font_dir h) then
    font_files.all (fun f => h.pathExists (font_dir h ++ "/" ++ f))
  else false

/-- The download command issued for one font file. -/
def font_download_cmd (h : Host) (f : String) : String :=
  "curl -L \x27https://github.com/romkatv/powerlevel10k-media/raw/master/" ++ urlEncodeSpaces f ++ "\x27 -o \"" ++ (font_dir h ++ "/" ++ f) ++ "\""

/-- `install_nerd_font` from `setup_cli.py`. -/
def install_nerd_font (h : Host) (o : Oracle) (dryRun : Bool) (password : Option String) : Outcome :=
  andThen (printOut ("--- Installing MesloLGS NF Nerd Font ---"))
  (if all_fonts_exist h then
    printOut ("MesloLGS NF fonts are already installed and cached.")
  else
    andThen (printOut ("Creating font directory..."))
    (andThen (run o ("mkdir -p \"" ++ font_dir h ++ "\"") none dryRun none none h.cwd)
    (andThen (forEach font_files (fun f =>
      andThen (printOut ("Downloading " ++ f ++ "..."))
      (run o (font_download_cmd h f) (some ("Failed to download " ++ f ++ ".")) dryRun none none h.cwd)))
    (andThen (printOut ("Updating font cache..."))
    (andThen (run o ("fc-cache -fv") (some ("Failed to update font cache.")) dryRun none none h.cwd)
    (printOut ("MesloLGS NF font installation commands issued.")))))))

/-- The post-`usermod` warning block printed by `install_docker` when the
user had to be added to the docker group while Docker was already present. -/
def dockerGroupWarning : Outcome :=
  andThen (printOut ("\n------------------------------------------------------------"))
  (andThen (printOut ("IMPORTANT: User added to \x27docker\x27 group."))
  (andThen (printOut ("For this change to take full effect, you MUST log out of your current session"))
  (andThen (printOut ("and log back in. You will not be able to run docker commands without sudo until then."))
  (printOut ("------------------------------------------------------------")))))

/-- The post-install warning block printed by `install_docker` after a
fresh installation. -/
def dockerInstallWarning : Outcome :=
  andThen (printOut ("\n------------------------------------------------------------"))
  (andThen (printOut ("IMPORTANT: Docker installed and user added to \x27docker\x27 group."))
  (andThen (printOut ("For this change to take full effect, you MUST log out of your current session"))
  (andThen (printOut ("and log back in. You will not be able to run docker commands without sudo until then."))
  (printOut ("------------------------------------------------------------")))))

/-- `install_docker` from `setup_cli.py`. -/
def install_docker (h : Host) (o : Oracle) (dryRun : Bool) (password : Option String) : Outcome :=
  andThen (printOut ("--- Installing Docker ---"))
  (andThen (commandProbe ("docker"))
  (if is_command_available h "docker" then
    andThen (printOut ("Docker is already installed."))
    (andThen groupsProbe
    (if h.userInDockerGroup then
      printOut ("User is already in the \x27docker\x27 group.")
    else
      andThen (printOut ("User is not in the \x27docker\x27 group. Adding user to \x27docker\x27 group..."))
      (andThen (run o ("sudo usermod -aG docker $USER") (some ("Failed to add user to \x27docker\x27 group.")) dryRun password none h.cwd)
      (if dryRun then retNone else dockerGroupWarning))))
  else
    andThen (printOut ("Downloading and executing Docker convenience script..."))
    (andThen (run o ("curl -fsSL https://get.docker.com -o /tmp/get-docker.sh")
        (some ("Failed to download Docker convenience script.")) dryRun none none h.cwd)
    (andThen (run o ("sudo sh /tmp/get-docker.sh") (some ("Failed to execute Docker convenience script.")) dryRun password none h.cwd)
    (andThen (run o ("rm /tmp/get-docker.sh") (some ("Failed to remove Docker convenience script.")) dryRun none none h.cwd)
    (andThen (printOut ("Adding current user to the \x27docker\x27 group..."))
    (andThen (run o ("sudo usermod -aG docker $USER") (some ("Failed to add user to \x27docker\x27 group.")) dryRun password none h.cwd)
    (andThen (if dryRun then retNone else dockerInstallWarning)
    (printOut ("Docker installation command issued."))))))))))

/-- The `cargo_programs` dictionary from `install_utility_programs`. -/
def cargo_programs : List (String × String) :=
  [("exa", "exa"), ("bottom", "btm"), ("watchexec-cli", "watchexec"),
   ("bat", "bat"), ("fd-find", "fd"), ("ripgrep", "rg"),
   ("tree-sitter-cli", "tree-sitter"), ("trunk", "trunk"), ("difftastic", "difft")]

/-- The `apt_programs` list from `install_utility_programs`. -/
def apt_programs : List String :=
  ["wl-clipboard", "cmatrix", "neofetch", "htop", "tree", "python3-pip", "python3-venv"]

/-- `install_utility_programs` from `setup_cli.py`. -/
def install_utility_programs (h : Host) (o : Oracle) (dryRun : Bool) (password : Option String) : Outcome :=
  andThen (forEach cargo_programs (fun p =>
    andThen (printOut ("--- Installing " ++ p.1 ++ " via cargo ---"))
    (andThen (commandProbe p.2)
    (if is_command_available h p.2 then
      printOut (p.1 ++ " (command: " ++ p.2 ++ ") is already installed.")
    else
      andThen (printOut ("Installing " ++ p.1 ++ "..."))
      (andThen (run o ("cargo install " ++ p.1) (some ("Failed to install " ++ p.1 ++ " via cargo.")) dryRun none none h.cwd)
      (printOut (p.1 ++ " installation command issued.")))))))
  (andThen (printOut ("--- Installing utility programs via apt ---"))
  (forEach apt_programs (fun p =>
    andThen (commandProbe p)
    (if is_command_available h p then
      printOut (p ++ " is already installed.")
    else
      andThen (printOut ("Installing " ++ p ++ "..."))
      (andThen (run o ("sudo apt update && sudo apt install -y " ++ p) (some ("Failed to install " ++ p ++ " via apt.")) dryRun password none h.cwd)
      (printOut (p ++ " installation command issued.")))))))

/-- An outcome a dry run is allowed to produce: no command executed through
`run` and no process exit; only printed lines and read-only probes. -/
def dryClean (oc : Outcome) : Prop :=
  oc.exited = none ∧ ∀ e ∈ oc.trace, e.isExec = false

/-- A host on which every probe reports the tool as present: every command
is on the search path, every path exists and is a directory, the login
shell is zsh and the user is in the docker group.  This is the host state
after a fully successful run of the script. -/
def installedHost : Host :=
  { commandAvailable := fun _ => true,
    pathExists := fun _ => true,
    isDir := fun _ => true,
    accessXOk := fun _ => true,
    shellEnv := some ("/usr/bin/zsh"),
    userInDockerGroup := true,
    home := "/home/user",
    scriptDir := "/repo",
    cwd := "/repo" }

/-- An oracle under which every executed command succeeds silently. -/
def okOracle : Oracle := fun _ _ _ => ⟨0, "", ""⟩

/-- Host family for the dotfiles-linking step: stow installed, the dotfiles
directory present, every plain path (such as `~/.config/nvim`) present, and
the presence of the p10k, zshrc, git and astronvim bundle directories
controlled by the four flags. -/
def dotfilesHost (p10kHere zshrcHere gitHere astronvimHere : Bool) : Host :=
  { commandAvailable := fun _ => true,
    pathExists := fun _ => true,
    isDir := fun p =>
      (p == "/repo/dotfiles") ||
      (p == "/repo/dotfiles/p10k" && p10kHere) ||
      (p == "/repo/dotfiles/zshrc" && zshrcHere) ||
      (p == "/repo/dotfiles/git" && gitHere) ||
      (p == "/repo/dotfiles/astronvim" && astronvimHere),
    accessXOk := fun _ => true,
    shellEnv := some ("/usr/bin/zsh"),
    userInDockerGroup := true,
    home := "/home/user",
    scriptDir := "/repo",
    cwd := "/repo" }

end SetupCli

namespace SetupCli

theorem andThen_of_exited_none {a : Outcome} (b : Outcome) (ha : a.exited = none) :
    andThen a b = ⟨a.trace ++ b.trace, b.exited, b.returned⟩ := by
  simp [andThen, ha]

theorem andThen_of_exited_some {a : Outcome} (b : Outcome) {c : Nat} (ha : a.exited = some c) :
    andThen a b = a := by
  simp [andThen, ha]

theorem run_not_dry (o : Oracle) (command : String) (errorMessage : Option String)
    (password : Option String) (dirPath : Option String) (cwd : String) :
    run o command errorMessage false password dirPath cwd =
      (let cmd := effectiveCommand command password
       let inp := effectiveInput command password
       let result := o cmd inp dirPath
       if result.exitCode = 0 then
         { trace := Effect.exec cmd inp dirPath ::
             (if result.stdout = "" then [] else [Effect.outLine (pyStrip result.stdout)]),
           exited := none, returned := none }
       else
         { trace := Effect.exec cmd inp dirPath ::
             ((match errorMessage with
               | some m => [Effect.errLine ("Error: " ++ m)]
               | none => []) ++
              [Effect.errLine ("Command \x27" ++ cmd ++ "\x27 failed with exit code " ++ toString result.exitCode ++ ".")] ++
              (if result.stdout = "" then [] else [Effect.errLine ("Stdout:\n" ++ pyStrip result.stdout)]) ++
              (if result.stderr = "" then [] else [Effect.errLine ("Stderr:\n" ++ pyStrip result.stderr)])),
           exited := some 1, returned := none }) := by
  simp [run]

/-- Claim C2: for every Command Runner invocation whose command exits with a
non-zero status (non-dry-run mode), the runner prints the optional
error-context message, the failing command, the exit status, and both
captured output streams (each stream when it is non-empty), then terminates
the whole process with exit code 1, so control never returns to the caller
and no subsequent step executes. -/
theorem run_failure_fail_fast (o : Oracle) (command : String) (errorMessage : Option String)
    (password : Option String) (dirPath : Option String) (cwd : String)
    (hfail : (o (effectiveCommand command password) (effectiveInput command password) dirPath).exitCode ≠ 0) :
    (run o command errorMessage false password dirPath cwd).exited = some 1 ∧
    (∀ rest : Outcome, andThen (run o command errorMessage false password dirPath cwd) rest =
      run o command errorMessage false password dirPath cwd) ∧
    Effect.errLine ("Command \x27" ++ effectiveCommand command password ++ "\x27 failed with exit code " ++
        toString (o (effectiveCommand command password) (effectiveInput command password) dirPath).exitCode ++ ".")
      ∈ (run o command errorMessage false password dirPath cwd).trace ∧
    (∀ m, errorMessage = some m →
      Effect.errLine ("Error: " ++ m) ∈ (run o command errorMessage false password dirPath cwd).trace) ∧
    ((o (effectiveCommand command password) (effectiveInput command password) dirPath).stdout ≠ "" →
      Effect.errLine ("Stdout:\n" ++ pyStrip (o (effectiveCommand command password) (effectiveInput command password) dirPath).stdout)
        ∈ (run o command errorMessage false password dirPath cwd).trace) ∧
    ((o (effectiveCommand command password) (effectiveInput command password) dirPath).stderr ≠ "" →
      Effect.errLine ("Stderr:\n" ++ pyStrip (o (effectiveCommand command password) (effectiveInput command password) dirPath).stderr)
        ∈ (run o command errorMessage false password dirPath cwd).trace) := by
  rw [run_not_dry]
  simp only []
  rw [if_neg hfail]
  refine ⟨rfl, ?_, ?_, ?_, ?_, ?_⟩
  · intro rest
    exact andThen_of_exited_some rest rfl
  · simp
  · intro m hm
    subst hm
    simp
  · intro hs
    rw [if_neg hs]
    simp
  · intro hs
    rw [if_neg hs]
    simp

/-- Witness for `run_failure_fail_fast`: a package-manager install command
exiting with status 100 yields exit code 1 and a report naming status 100. -/
theorem run_failure_fail_fast_witness :
    (run (fun _ _ _ => ⟨100, "out text", "err text"⟩) "apt install -y zsh" (some ("Failed to install Zsh.")) false none none "/home/user").exited = some 1 ∧
    Effect.errLine ("Command \x27apt install -y zsh\x27 failed with exit code 100.")
      ∈ (run (fun _ _ _ => ⟨100, "out text", "err text"⟩) "apt install -y zsh" (some ("Failed to install Zsh.")) false none none "/home/user").trace ∧
    Effect.errLine ("Error: Failed to install Zsh.")
      ∈ (run (fun _ _ _ => ⟨100, "out text", "err text"⟩) "apt install -y zsh" (some ("Failed to install Zsh.")) false none none "/home/user").trace := by
  have h := run_failure_fail_fast (fun _ _ _ => ⟨100, "out text", "err text"⟩)
    "apt install -y zsh" (some ("Failed to install Zsh.")) none none "/home/user" (by decide)
  exact ⟨h.1, by simpa using h.2.2.1, h.2.2.2.1 _ rfl⟩

/-- Claim C3 counterexample: on a successful command whose captured standard
output is `"hello"`, `run` returns `None` to its caller (it prints the
output instead of returning it), refuting the claim that the captured
standard output is returned to the caller. -/
theorem run_success_does_not_return_stdout :
    ((fun _ _ _ => (⟨0, "hello", ""⟩ : CmdResult)) : Oracle) "echo hi" none none = ⟨0, "hello", ""⟩ ∧
    (run (fun _ _ _ => ⟨0, "hello", ""⟩) "echo hi" none false none none "/home/user").returned = none ∧
    ¬ ((run (fun _ _ _ => ⟨0, "hello", ""⟩) "echo hi" none false none none "/home/user").returned = some ("hello")) := by
  refine ⟨rfl, rfl, by decide⟩

/-- Claim C3 amended: on success (exit status zero, non-dry-run mode) the
runner does not terminate the process and does not return the captured
standard output; instead it prints the stripped captured standard output to
standard output when it is non-empty, and returns `None` to the caller. -/
theorem run_success_prints_stdout (o : Oracle) (command : String) (errorMessage : Option String)
    (password : Option String) (dirPath : Option String) (cwd : String)
    (hok : (o (effectiveCommand command password) (effectiveInput command password) dirPath).exitCode = 0) :
    (run o command errorMessage false password dirPath cwd).exited = none ∧
    (run o command errorMessage false password dirPath cwd).returned = none ∧
    ((o (effectiveCommand command password) (effectiveInput command password) dirPath).stdout ≠ "" →
      Effect.outLine (pyStrip (o (effectiveCommand command password) (effectiveInput command password) dirPath).stdout)
        ∈ (run o command errorMessage false password dirPath cwd).trace) ∧
    ((o (effectiveCommand command password) (effectiveInput command password) dirPath).stdout = "" →
      printedLines (run o command errorMessage false password dirPath cwd).trace = []) := by
  rw [run_not_dry]
  simp only []
  rw [if_pos hok]
  refine ⟨rfl, rfl, ?_, ?_⟩
  · intro hs
    rw [if_neg hs]
    simp
  · intro hs
    rw [if_pos hs]
    simp [printedLines]

/-- Witness for `run_success_prints_stdout`. -/
theorem run_success_prints_stdout_witness :
    (run (fun _ _ _ => ⟨0, " hello \n", ""⟩) "echo hello" none false none none "/home/user").exited = none ∧
    Effect.outLine ("hello")
      ∈ (run (fun _ _ _ => ⟨0, " hello \n", ""⟩) "echo hello" none false none none "/home/user").trace := by
  have h := run_success_prints_stdout (fun _ _ _ => ⟨0, " hello \n", ""⟩)
    "echo hello" none none none "/home/user" rfl
  refine ⟨h.1, ?_⟩
  have := h.2.2.1 (by decide)
  simpa [pyStrip, dropLeading, isSpaceChar] using this

theorem effectiveCommand_sudo {command pw : String} (h1 : pw ≠ "")
    (h2 : strStarts command "sudo" = true) :
    effectiveCommand command (some pw) = "echo " ++ pw ++ " | sudo -S " ++ command := by
  simp [effectiveCommand, h1, h2]

theorem effectiveCommand_plain (command : String) (pw : Option String)
    (h2 : strStarts command "sudo" = false) :
    effectiveCommand command pw = command := by
  cases pw with
  | none => rfl
  | some p =>
    by_cases hp : p = "" <;> simp [effectiveCommand, hp, h2]

theorem effectiveInput_chsh {command pw : String} (h1 : pw ≠ "")
    (h2 : strStarts command "sudo" = false) (h3 : strContains command "chsh" = true) :
    effectiveInput command (some pw) = some (pw ++ "\n") := by
  simp [effectiveInput, h1, h2, h3]

theorem effectiveInput_sudo {command pw : String} (h1 : pw ≠ "")
    (h2 : strStarts command "sudo" = true) :
    effectiveInput command (some pw) = none := by
  simp [effectiveInput, h1, h2]

theorem effectiveInput_plain (command : String) (pw : Option String)
    (h2 : strStarts command "sudo" = false) (h3 : strContains command "chsh" = false) :
    effectiveInput command pw = none := by
  cases pw with
  | none => rfl
  | some p =>
    by_cases hp : p = "" <;> simp [effectiveInput, hp, h2, h3]

/-- Claim C1 counterexample: for a failing sudo-prefixed command run with
credential `hunter2`, the runner's failure report printed to standard error
contains the credential in plaintext (the report prints the rewritten
command `echo hunter2 | sudo -S …`), refuting the claim that the credential
never appears in anything the runner prints. -/
theorem sudo_failure_report_leaks_password :
    effectiveCommand "sudo apt update" (some ("hunter2")) = "echo hunter2 | sudo -S sudo apt update" ∧
    (errLines (run (fun _ _ _ => ⟨1, "", ""⟩) "sudo apt update" (some ("Failed to update."))
        false (some ("hunter2")) none "/home/user").trace).any
      (fun l => strContains l "hunter2") = true := by
  exact ⟨rfl, by decide⟩

/-- Claim C1 amended: with a supplied non-empty credential, a `chsh` command
receives exactly the credential plus a trailing newline on its standard
input, and a sudo-prefixed command has the credential embedded into the
executed `echo {credential} | sudo -S …` pipeline (which feeds it to sudo's
standard input); on success the runner prints nothing but the sub-command's
stripped standard output, so the credential is not echoed there — but when a
sudo-prefixed command fails, the failure report printed to standard error
contains the rewritten command, which embeds the plaintext credential. -/
theorem credential_delivery_amended :
    (∀ (o : Oracle) (command pw : String) (em : Option String) (dp : Option String) (cwd : String),
      pw ≠ "" → strStarts command "sudo" = false → strContains command "chsh" = true →
      effectiveInput command (some pw) = some (pw ++ "\n") ∧
      effectiveCommand command (some pw) = command ∧
      Effect.exec command (some (pw ++ "\n")) dp ∈ (run o command em false (some pw) dp cwd).trace) ∧
    (∀ (command pw : String), pw ≠ "" → strStarts command "sudo" = true →
      effectiveCommand command (some pw) = "echo " ++ pw ++ " | sudo -S " ++ command ∧
      effectiveInput command (some pw) = none) ∧
    (∀ (o : Oracle) (command : String) (em : Option String) (pw : Option String) (dp : Option String) (cwd : String),
      (o (effectiveCommand command pw) (effectiveInput command pw) dp).exitCode = 0 →
      ∀ l ∈ printedLines (run o command em false pw dp cwd).trace,
        l = pyStrip (o (effectiveCommand command pw) (effectiveInput command pw) dp).stdout) ∧
    (∀ (o : Oracle) (command pw : String) (em : Option String) (dp : Option String) (cwd : String),
      pw ≠ "" → strStarts command "sudo" = true →
      (o ("echo " ++ pw ++ " | sudo -S " ++ command) none dp).exitCode ≠ 0 →
      Effect.errLine ("Command \x27" ++ ("echo " ++ pw ++ " | sudo -S " ++ command) ++ "\x27 failed with exit code " ++
          toString (o ("echo " ++ pw ++ " | sudo -S " ++ command) none dp).exitCode ++ ".")
        ∈ (run o command em false (some pw) dp cwd).trace) := by
  refine ⟨?_, ?_, ?_, ?_⟩
  · intro o command pw em dp cwd h1 h2 h3
    refine ⟨effectiveInput_chsh h1 h2 h3, effectiveCommand_plain command (some pw) h2, ?_⟩
    rw [run_not_dry]
    simp only [effectiveInput_chsh h1 h2 h3, effectiveCommand_plain command (some pw) h2]
    split <;> simp
  · intro command pw h1 h2
    exact ⟨effectiveCommand_sudo h1 h2, effectiveInput_sudo h1 h2⟩
  · intro o command em pw dp cwd hok l hl
    rw [run_not_dry] at hl
    simp only [] at hl
    rw [if_pos hok] at hl
    by_cases hs : (o (effectiveCommand command pw) (effectiveInput command pw) dp).stdout = ""
    · rw [if_pos hs] at hl
      simp [printedLines] at hl
    · rw [if_neg hs] at hl
      simpa [printedLines] using hl
  · intro o command pw em dp cwd h1 h2 hfail
    have hc := effectiveCommand_sudo h1 h2
    have hi := effectiveInput_sudo h1 h2
    have h := run_failure_fail_fast o command em (some pw) dp cwd (by rw [hc, hi]; exact hfail)
    have := h.2.2.1
    rw [hc, hi] at this
    exact this

/-- Witness for `credential_delivery_amended`. -/
theorem credential_delivery_amended_witness :
    effectiveInput "chsh -s $(which zsh)" (some ("hunter2")) = some ("hunter2" ++ "\n") ∧
    effectiveCommand "sudo apt update" (some ("hunter2")) = "echo " ++ "hunter2" ++ " | sudo -S " ++ "sudo apt update" := by
  refine ⟨?_, ?_⟩
  · exact (credential_delivery_amended.1 (fun _ _ _ => ⟨0, "", ""⟩) "chsh -s $(which zsh)" "hunter2"
      none none "/home/user" (by decide) (by decide) (by decide)).1
  · exact (credential_delivery_amended.2.1 "sudo apt update" "hunter2" (by decide) (by decide)).1

theorem dryClean_retNone : dryClean retNone := by
  simp [dryClean, retNone]

theorem dryClean_printOut (s : String) : dryClean (printOut s) := by
  simp [dryClean, printOut, Effect.isExec]

theorem dryClean_printErr (s : String) : dryClean (printErr s) := by
  simp [dryClean, printErr, Effect.isExec]

theorem dryClean_commandProbe (c : String) : dryClean (commandProbe c) := by
  simp [dryClean, commandProbe, Effect.isExec]

theorem dryClean_groupsProbe : dryClean groupsProbe := by
  simp [dryClean, groupsProbe, Effect.isExec]

theorem dryClean_run_dry (o : Oracle) (command : String) (errorMessage : Option String)
    (password : Option String) (dirPath : Option String) (cwd : String) :
    dryClean (run o command errorMessage true password dirPath cwd) := by
  simp [dryClean, run, Effect.isExec]

theorem dryClean_andThen {a b : Outcome} (ha : dryClean a) (hb : dryClean b) :
    dryClean (andThen a b) := by
  obtain ⟨hae, hat⟩ := ha
  obtain ⟨hbe, hbt⟩ := hb
  rw [andThen_of_exited_none b hae]
  refine ⟨hbe, ?_⟩
  intro e he
  rcases List.mem_append.mp he with h | h
  · exact hat e h
  · exact hbt e h

theorem dryClean_ite (c : Prop) [Decidable c] {a b : Outcome}
    (ha : dryClean a) (hb : dryClean b) : dryClean (if c then a else b) := by
  by_cases h : c
  · rwa [if_pos h]
  · rwa [if_neg h]

theorem dryClean_forEach {α : Type} (xs : List α) (f : α → Outcome)
    (hf : ∀ x ∈ xs, dryClean (f x)) : dryClean (forEach xs f) := by
  induction xs with
  | nil => exact dryClean_retNone
  | cons x rest ih =>
    exact dryClean_andThen (hf x (List.mem_cons_self x rest))
      (ih (fun y hy => hf y (List.mem_cons_of_mem x hy)))

theorem dry_install_rust (h : Host) (o : Oracle) (pw : Option String) :
    dryClean (install_rust h o true pw) := by
  unfold install_rust
  repeat
    first
    | exact dryClean_retNone
    | exact dryClean_printOut _
    | exact dryClean_printErr _
    | exact dryClean_commandProbe _
    | exact dryClean_groupsProbe
    | exact dryClean_run_dry _ _ _ _ _ _
    | apply dryClean_andThen
    | apply dryClean_ite

theorem dry_setup_oh_my_zsh (h : Host) (o : Oracle) (pw : Option String) :
    dryClean (setup_oh_my_zsh h o true pw) := by
  unfold setup_oh_my_zsh chshBlock
  repeat
    first
    | exact dryClean_retNone
    | exact dryClean_printOut _
    | exact dryClean_printErr _
    | exact dryClean_commandProbe _
    | exact dryClean_groupsProbe
    | exact dryClean_run_dry _ _ _ _ _ _
    | apply dryClean_andThen
    | apply dryClean_ite

theorem dry_install_gemini_cli (h : Host) (o : Oracle) (pw : Option String) :
    dryClean (install_gemini_cli h o true pw) := by
  unfold install_gemini_cli
  repeat
    first
    | exact dryClean_retNone
    | exact dryClean_printOut _
    | exact dryClean_printErr _
    | exact dryClean_commandProbe _
    | exact dryClean_groupsProbe
    | exact dryClean_run_dry _ _ _ _ _ _
    | apply dryClean_andThen
    | apply dryClean_ite

theorem dry_install_stow (h : Host) (o : Oracle) (pw : Option String) :
    dryClean (install_stow h o true pw) := by
  unfold install_stow
  repeat
    first
    | exact dryClean_retNone
    | exact dryClean_printOut _
    | exact dryClean_printErr _
    | exact dryClean_commandProbe _
    | exact dryClean_groupsProbe
    | exact dryClean_run_dry _ _ _ _ _ _
    | apply dryClean_andThen
    | apply dryClean_ite

theorem dry_install_powerlevel10k (h : Host) (o : Oracle) (pw : Option String) :
    dryClean (install_powerlevel10k h o true pw) := by
  unfold install_powerlevel10k
  repeat
    first
    | exact dryClean_retNone
    | exact dryClean_printOut _
    | exact dryClean_printErr _
    | exact dryClean_commandProbe _
    | exact dryClean_groupsProbe
    | exact dryClean_run_dry _ _ _ _ _ _
    | apply dryClean_andThen
    | apply dryClean_ite

theorem dry_install_oh_my_zsh_plugins (h : Host) (o : Oracle) (pw : Option String) :
    dryClean (install_oh_my_zsh_plugins h o true pw) := by
  unfold install_oh_my_zsh_plugins
  repeat
    first
    | exact dryClean_retNone
    | exact dryClean_printOut _
    | exact dryClean_printErr _
    | exact dryClean_commandProbe _
    | exact dryClean_groupsProbe
    | exact dryClean_run_dry _ _ _ _ _ _
    | apply dryClean_andThen
    | apply dryClean_ite
    | (apply dryClean_forEach; intro x hx)

theorem dry_install_fzf (h : Host) (o : Oracle) (pw : Option String) :
    dryClean (install_fzf h o true pw) := by
  unfold install_fzf
  repeat
    first
    | exact dryClean_retNone
    | exact dryClean_printOut _
    | exact dryClean_printErr _
    | exact dryClean_commandProbe _
    | exact dryClean_groupsProbe
    | exact dryClean_run_dry _ _ _ _ _ _
    | apply dryClean_andThen
    | apply dryClean_ite

theorem dry_setup_dotfiles_with_stow (h : Host) (o : Oracle) (pw : Option String) :
    dryClean (setup_dotfiles_with_stow h o true pw) := by
  unfold setup_dotfiles_with_stow
  repeat
    first
    | exact dryClean_retNone
    | exact dryClean_printOut _
    | exact dryClean_printErr _
    | exact dryClean_commandProbe _
    | exact dryClean_groupsProbe
    | exact dryClean_run_dry _ _ _ _ _ _
    | exact dry_install_stow h o pw
    | apply dryClean_andThen
    | apply dryClean_ite

theorem dry_install_nvim_and_astronvim (h : Host) (o : Oracle) (pw : Option String) :
    dryClean (install_nvim_and_astronvim h o true pw) := by
  unfold install_nvim_and_astronvim
  repeat
    first
    | exact dryClean_retNone
    | exact dryClean_printOut _
    | exact dryClean_printErr _
    | exact dryClean_commandProbe _
    | exact dryClean_groupsProbe
    | exact dryClean_run_dry _ _ _ _ _ _
    | apply dryClean_andThen
    | apply dryClean_ite

theorem dry_install_nerd_font (h : Host) (o : Oracle) (pw : Option String) :
    dryClean (install_nerd_font h o true pw) := by
  unfold install_nerd_font
  repeat
    first
    | exact dryClean_retNone
    | exact dryClean_printOut _
    | exact dryClean_printErr _
    | exact dryClean_commandProbe _
    | exact dryClean_groupsProbe
    | exact dryClean_run_dry _ _ _ _ _ _
    | apply dryClean_andThen
    | apply dryClean_ite
    | (apply dryClean_forEach; intro x hx)

theorem dry_install_docker (h : Host) (o : Oracle) (pw : Option String) :
    dryClean (install_docker h o true pw) := by
  unfold install_docker dockerGroupWarning dockerInstallWarning
  repeat
    first
    | exact dryClean_retNone
    | exact dryClean_printOut _
    | exact dryClean_printErr _
    | exact dryClean_commandProbe _
    | exact dryClean_groupsProbe
    | exact dryClean_run_dry _ _ _ _ _ _
    | apply dryClean_andThen
    | apply dryClean_ite

theorem dry_install_utility_programs (h : Host) (o : Oracle) (pw : Option String) :
    dryClean (install_utility_programs h o true pw) := by
  unfold install_utility_programs
  apply dryClean_andThen
  · apply dryClean_forEach
    intro x hx
    apply dryClean_andThen (dryClean_printOut _)
    apply dryClean_andThen (dryClean_commandProbe _)
    apply dryClean_ite
    · exact dryClean_printOut _
    · exact dryClean_andThen (dryClean_printOut _)
        (dryClean_andThen (dryClean_run_dry _ _ _ _ _ _) (dryClean_printOut _))
  · apply dryClean_andThen (dryClean_printOut _)
    apply dryClean_forEach
    intro x hx
    apply dryClean_andThen (dryClean_commandProbe _)
    apply dryClean_ite
    · exact dryClean_printOut _
    · exact dryClean_andThen (dryClean_printOut _)
        (dryClean_andThen (dryClean_run_dry _ _ _ _ _ _) (dryClean_printOut _))

theorem andThen_exited {a b : Outcome} (ha : a.exited = none) :
    (andThen a b).exited = b.exited := by
  simp [andThen, ha]

theorem andThen_trace {a b : Outcome} (ha : a.exited = none) :
    (andThen a b).trace = a.trace ++ b.trace := by
  simp [andThen, ha]

theorem execCmds_append (t1 t2 : List Effect) :
    execCmds (t1 ++ t2) = execCmds t1 ++ execCmds t2 := by
  simp [execCmds]

theorem andThen_execCmds {a b : Outcome} (ha : a.exited = none) :
    execCmds (andThen a b).trace = execCmds a.trace ++ execCmds b.trace := by
  rw [andThen_trace ha, execCmds_append]

theorem printOut_exited (s : String) : (printOut s).exited = none := rfl

theorem printOut_execCmds (s : String) : execCmds (printOut s).trace = [] := rfl

theorem printOut_trace (s : String) : (printOut s).trace = [Effect.outLine s] := rfl

theorem printErr_exited (s : String) : (printErr s).exited = none := rfl

theorem printErr_execCmds (s : String) : execCmds (printErr s).trace = [] := rfl

theorem printErr_trace (s : String) : (printErr s).trace = [Effect.errLine s] := rfl

theorem commandProbe_exited (c : String) : (commandProbe c).exited = none := rfl

theorem commandProbe_execCmds (c : String) : execCmds (commandProbe c).trace = [] := rfl

theorem commandProbe_trace (c : String) :
    (commandProbe c).trace = [Effect.probe ("command -v " ++ c)] := rfl

theorem groupsProbe_exited : groupsProbe.exited = none := rfl

theorem groupsProbe_execCmds : execCmds groupsProbe.trace = [] := rfl

theorem retNone_exited : retNone.exited = none := rfl

theorem retNone_execCmds : execCmds retNone.trace = [] := rfl

theorem retNone_trace : retNone.trace = [] := rfl

theorem run_success_exited (o : Oracle) (command : String) (em : Option String)
    (pw : Option String) (dp : Option String) (cwd : String)
    (hok : (o (effectiveCommand command pw) (effectiveInput command pw) dp).exitCode = 0) :
    (run o command em false pw dp cwd).exited = none := by
  rw [run_not_dry]
  simp only []
  rw [if_pos hok]

theorem run_success_execCmds (o : Oracle) (command : String) (em : Option String)
    (pw : Option String) (dp : Option String) (cwd : String)
    (hok : (o (effectiveCommand command pw) (effectiveInput command pw) dp).exitCode = 0) :
    execCmds (run o command em false pw dp cwd).trace = [effectiveCommand command pw] := by
  rw [run_not_dry]
  simp only []
  rw [if_pos hok]
  simp only [execCmds, List.filterMap]
  split <;> simp [execCmds]

theorem run_success_exec_mem (o : Oracle) (command : String) (em : Option String)
    (pw : Option String) (dp : Option String) (cwd : String)
    (hok : (o (effectiveCommand command pw) (effectiveInput command pw) dp).exitCode = 0) :
    Effect.exec (effectiveCommand command pw) (effectiveInput command pw) dp
      ∈ (run o command em false pw dp cwd).trace := by
  rw [run_not_dry]
  simp only []
  rw [if_pos hok]
  simp

/-- Claim C4: with the dry-run flag set, every installer step produces no
executed command and no process exit — only printed lines and read-only
presence probes — and the Command Runner unconditionally prints the intended
command together with its working directory instead of executing it. -/
theorem dry_run_no_exec_no_exit (h : Host) (o : Oracle) (pw : Option String) :
    dryClean (install_rust h o true pw) ∧
    dryClean (setup_oh_my_zsh h o true pw) ∧
    dryClean (install_gemini_cli h o true pw) ∧
    dryClean (install_stow h o true pw) ∧
    dryClean (install_powerlevel10k h o true pw) ∧
    dryClean (install_oh_my_zsh_plugins h o true pw) ∧
    dryClean (install_fzf h o true pw) ∧
    dryClean (setup_dotfiles_with_stow h o true pw) ∧
    dryClean (install_nvim_and_astronvim h o true pw) ∧
    dryClean (install_nerd_font h o true pw) ∧
    dryClean (install_docker h o true pw) ∧
    dryClean (install_utility_programs h o true pw) ∧
    (∀ (command : String) (em : Option String) (dp : Option String) (cwd : String),
      run o command em true pw dp cwd =
        { trace := [Effect.outLine ("[Dry Run] Would execute: " ++ command ++ " in " ++ dirOrCwd dp cwd)],
          exited := none, returned := none }) :=
  ⟨dry_install_rust h o pw, dry_setup_oh_my_zsh h o pw, dry_install_gemini_cli h o pw,
   dry_install_stow h o pw, dry_install_powerlevel10k h o pw,
   dry_install_oh_my_zsh_plugins h o pw, dry_install_fzf h o pw,
   dry_setup_dotfiles_with_stow h o pw, dry_install_nvim_and_astronvim h o pw,
   dry_install_nerd_font h o pw, dry_install_docker h o pw,
   dry_install_utility_programs h o pw,
   fun command em dp cwd => by simp [run]⟩

/-- Claim C5 counterexample: on the fully-installed host (NVM present,
`gemini` on the path) `install_gemini_cli` still executes the two
`nvm install --lts` / `nvm use --lts` acquisition commands, refuting the
claim that a second run issues no acquisition commands for every step with
an idempotency probe. -/
theorem gemini_cli_second_run_issues_commands :
    installedHost.pathExists (nvm_sh installedHost) = true ∧
    is_command_available installedHost "gemini" = true ∧
    execCmds (install_gemini_cli installedHost okOracle false none).trace =
      [nvm_source_cmd installedHost ++ "nvm install --lts",
       nvm_source_cmd installedHost ++ "nvm use --lts"] := by
  exact ⟨rfl, rfl, by decide⟩

/-- Claim C5 amended: steps with a whole-step idempotency probe behave as
claimed — `install_rust` on a host where `rustc` is present reports the
prior installation and executes nothing — but `install_gemini_cli` executes
the `nvm install --lts` and `nvm use --lts` commands on every run even when
NVM and `gemini` are already installed; only its NVM-download and
gemini-package sub-phases are guarded by probes. -/
theorem idempotency_amended (h : Host) (o : Oracle) (pw : Option String)
    (hrust : h.commandAvailable "rustc" = true)
    (hnvm : h.pathExists (nvm_sh h) = true)
    (hgem : h.commandAvailable "gemini" = true)
    (hok : ∀ c i d, (o c i d).exitCode = 0) :
    execCmds (install_rust h o false pw).trace = [] ∧
    (install_rust h o false pw).exited = none ∧
    Effect.outLine ("Rust is already installed.") ∈ (install_rust h o false pw).trace ∧
    execCmds (install_gemini_cli h o false pw).trace =
      [nvm_source_cmd h ++ "nvm install --lts", nvm_source_cmd h ++ "nvm use --lts"] ∧
    (install_gemini_cli h o false pw).exited = none ∧
    Effect.outLine ("NVM is already installed.") ∈ (install_gemini_cli h o false pw).trace ∧
    Effect.outLine ("@google/gemini-cli is already installed.") ∈ (install_gemini_cli h o false pw).trace := by
  have hre : ∀ (c : String) (em : Option String),
      (run o c em false none none h.cwd).exited = none :=
    fun c em => run_success_exited o c em none none h.cwd (hok _ _ _)
  have hrc : ∀ (c : String) (em : Option String),
      execCmds (run o c em false none none h.cwd).trace = [c] :=
    fun c em => run_success_execCmds o c em none none h.cwd (hok _ _ _)
  refine ⟨?_, ?_, ?_, ?_, ?_, ?_, ?_⟩
  · simp [install_rust, is_command_available, hrust, andThen_execCmds, andThen_exited,
      printOut_exited, printOut_execCmds, commandProbe_exited, commandProbe_execCmds]
  · simp [install_rust, is_command_available, hrust, andThen_exited,
      printOut_exited, commandProbe_exited]
  · simp [install_rust, is_command_available, hrust, andThen_trace,
      printOut_exited, commandProbe_exited, printOut_trace, commandProbe_trace]
  · simp [install_gemini_cli, is_command_available, hnvm, hgem, andThen_execCmds, andThen_exited,
      printOut_exited, printOut_execCmds, commandProbe_exited, commandProbe_execCmds, hre, hrc]
  · simp [install_gemini_cli, is_command_available, hnvm, hgem, andThen_exited,
      printOut_exited, commandProbe_exited, hre]
  · simp [install_gemini_cli, is_command_available, hnvm, hgem, andThen_trace, andThen_exited,
      printOut_exited, commandProbe_exited, hre, printOut_trace, commandProbe_trace]
  · simp [install_gemini_cli, is_command_available, hnvm, hgem, andThen_trace, andThen_exited,
      printOut_exited, commandProbe_exited, hre, printOut_trace, commandProbe_trace]

/-- Witness for `idempotency_amended`. -/
theorem idempotency_amended_witness :
    execCmds (install_rust installedHost okOracle false none).trace = [] ∧
    execCmds (install_gemini_cli installedHost okOracle false none).trace =
      [nvm_source_cmd installedHost ++ "nvm install --lts",
       nvm_source_cmd installedHost ++ "nvm use --lts"] := by
  have h := idempotency_amended installedHost okOracle none rfl rfl rfl (fun _ _ _ => rfl)
  exact ⟨h.1, h.2.2.2.1⟩

/-- Claim C6 counterexample: on a host where the dotfiles directory exists
but the p10k bundle directory is absent, `setup_dotfiles_with_stow` still
executes `stow -R -t ~ p10k` — the p10k bundle is not skippable, refuting
the claim that every bundle whose source directory is absent is skipped. -/
theorem p10k_stowed_when_absent :
    (dotfilesHost false false false false).isDir
      (dotfiles_path (dotfilesHost false false false false) ++ "/p10k") = false ∧
    (dotfilesHost false false false false).isDir
      (dotfiles_path (dotfilesHost false false false false)) = true ∧
    "stow -R -t ~ p10k" ∈
      execCmds (setup_dotfiles_with_stow (dotfilesHost false false false false) okOracle false none).trace := by
  exact ⟨by decide, by decide, by decide⟩

/-- Claim C6 amended: in the dotfiles-linking step the zshrc, git and
astronvim bundles are each optional and independently skippable — their
linking command is executed exactly when their source directory is present,
independently of the other bundles — but the p10k bundle's linking command
is executed unconditionally, even when its source directory is absent. -/
theorem stow_bundles_amended (zshrcHere gitHere astronvimHere : Bool) :
    "stow -R -t ~ p10k" ∈
      execCmds (setup_dotfiles_with_stow (dotfilesHost false zshrcHere gitHere astronvimHere) okOracle false none).trace ∧
    (("stow -R -t ~ zshrc" ∈
      execCmds (setup_dotfiles_with_stow (dotfilesHost false zshrcHere gitHere astronvimHere) okOracle false none).trace) ↔
      zshrcHere = true) ∧
    (("stow -R -t ~ git" ∈
      execCmds (setup_dotfiles_with_stow (dotfilesHost false zshrcHere gitHere astronvimHere) okOracle false none).trace) ↔
      gitHere = true) ∧
    (("stow -R -t ~/.config/nvim astronvim" ∈
      execCmds (setup_dotfiles_with_stow (dotfilesHost false zshrcHere gitHere astronvimHere) okOracle false none).trace) ↔
      astronvimHere = true) ∧
    (setup_dotfiles_with_stow (dotfilesHost false zshrcHere gitHere astronvimHere) okOracle false none).exited = none := by
  cases zshrcHere <;> cases gitHere <;> cases astronvimHere <;> exact (by decide)

/-- Claim C7: when the font directory is absent, `install_nerd_font` issues
(after one directory-creation command) exactly the four font-file download
commands, in the order of `font_files`, followed by the single
`fc-cache -fv` font-cache-refresh command. -/
theorem nerd_font_absent_commands (h : Host) (o : Oracle) (pw : Option String)
    (habs : h.isDir (font_dir h) = false)
    (hok : ∀ c i d, (o c i d).exitCode = 0) :
    execCmds (install_nerd_font h o false pw).trace =
      ["mkdir -p \"" ++ font_dir h ++ "\"",
       font_download_cmd h "MesloLGS NF Regular.ttf",
       font_download_cmd h "MesloLGS NF Bold.ttf",
       font_download_cmd h "MesloLGS NF Italic.ttf",
       font_download_cmd h "MesloLGS NF Bold Italic.ttf",
       "fc-cache -fv"] ∧
    (install_nerd_font h o false pw).exited = none := by
  have hfalse : all_fonts_exist h = false := by
    simp [all_fonts_exist, habs]
  have hrunEq : ∀ (c : String) (em : Option String),
      run o c em false none none h.cwd =
        { trace := Effect.exec c none none ::
            (if (o c none none).stdout = "" then [] else [Effect.outLine (pyStrip (o c none none).stdout)]),
          exited := none, returned := none } := by
    intro c em
    rw [run_not_dry]
    simp only [effectiveCommand, effectiveInput]
    rw [if_pos (hok c none none)]
  constructor
  · simp [install_nerd_font, hfalse, font_files, forEach, hrunEq, andThen, printOut, retNone,
      execCmds, apply_ite (List.filterMap _)]
  · simp [install_nerd_font, hfalse, font_files, forEach, hrunEq, andThen, printOut, retNone]

/-- Witness for `nerd_font_absent_commands`. -/
theorem nerd_font_absent_commands_witness :
    execCmds (install_nerd_font
      { commandAvailable := fun _ => true, pathExists := fun _ => true,
        isDir := fun _ => false, accessXOk := fun _ => true,
        shellEnv := some ("/usr/bin/zsh"), userInDockerGroup := true,
        home := "/home/user", scriptDir := "/repo", cwd := "/repo" } okOracle false none).trace =
      ["mkdir -p \"/home/user/.local/share/fonts/MesloLGS NF\"",
       "curl -L \x27https://github.com/romkatv/powerlevel10k-media/raw/master/MesloLGS%20NF%20Regular.ttf\x27 -o \"/home/user/.local/share/fonts/MesloLGS NF/MesloLGS NF Regular.ttf\"",
       "curl -L \x27https://github.com/romkatv/powerlevel10k-media/raw/master/MesloLGS%20NF%20Bold.ttf\x27 -o \"/home/user/.local/share/fonts/MesloLGS NF/MesloLGS NF Bold.ttf\"",
       "curl -L \x27https://github.com/romkatv/powerlevel10k-media/raw/master/MesloLGS%20NF%20Italic.ttf\x27 -o \"/home/user/.local/share/fonts/MesloLGS NF/MesloLGS NF Italic.ttf\"",
       "curl -L \x27https://github.com/romkatv/powerlevel10k-media/raw/master/MesloLGS%20NF%20Bold%20Italic.ttf\x27 -o \"/home/user/.local/share/fonts/MesloLGS NF/MesloLGS NF Bold Italic.ttf\"",
       "fc-cache -fv"] := by
  have h := nerd_font_absent_commands
    { commandAvailable := fun _ => true, pathExists := fun _ => true,
      isDir := fun _ => false, accessXOk := fun _ => true,
      shellEnv := some ("/usr/bin/zsh"), userInDockerGroup := true,
      home := "/home/user", scriptDir := "/repo", cwd := "/repo" } okOracle none rfl (fun _ _ _ => rfl)
  rw [h.1]
  decide

/-- Claim C8: when the font directory exists and contains all four required
font files, `install_nerd_font` issues zero commands and reports that the
fonts are already installed (its whole trace is the two report lines). -/
theorem nerd_font_present_no_commands (h : Host) (o : Oracle) (pw : Option String)
    (hdir : h.isDir (font_dir h) = true)
    (hfiles : ∀ f ∈ font_files, h.pathExists (font_dir h ++ "/" ++ f) = true) :
    (install_nerd_font h o false pw).trace =
      [Effect.outLine ("--- Installing MesloLGS NF Nerd Font ---"),
       Effect.outLine ("MesloLGS NF fonts are already installed and cached.")] ∧
    execCmds (install_nerd_font h o false pw).trace = [] ∧
    (install_nerd_font h o false pw).exited = none := by
  have htrue : all_fonts_exist h = true := by
    simp only [all_fonts_exist, hdir, if_true]
    rw [List.all_eq_true]
    intro f hf
    exact hfiles f hf
  refine ⟨?_, ?_, ?_⟩
  · simp [install_nerd_font, htrue, andThen_trace, printOut_exited, printOut_trace]
  · simp [install_nerd_font, htrue, andThen_execCmds, printOut_exited, printOut_execCmds]
  · simp [install_nerd_font, htrue, andThen_exited, printOut_exited]

/-- Witness for `nerd_font_present_no_commands`. -/
theorem nerd_font_present_no_commands_witness :
    execCmds (install_nerd_font installedHost okOracle false none).trace = [] ∧
    Effect.outLine ("MesloLGS NF fonts are already installed and cached.")
      ∈ (install_nerd_font installedHost okOracle false none).trace := by
  have h := nerd_font_present_no_commands installedHost okOracle none rfl (fun f _ => rfl)
  refine ⟨h.2.1, ?_⟩
  rw [h.1]
  decide

/-- Claim C9: in `setup_oh_my_zsh` (here on a host where zsh and Oh My Zsh
are already present, so the earlier sub-phases execute nothing), the
`chsh -s $(which zsh)` default-shell-change command is skipped exactly when
the `SHELL` environment variable is set and ends in `zsh`, and is executed
(with the credential fed to its standard input) otherwise. -/
theorem chsh_skip_iff_shell_zsh (h : Host) (o : Oracle) (pw : Option String)
    (hzsh : h.commandAvailable "zsh" = true)
    (homz : h.pathExists (h.home ++ "/.oh-my-zsh") = true)
    (hok : ∀ c i d, (o c i d).exitCode = 0) :
    (shellIsZsh h.shellEnv = true →
      execCmds (setup_oh_my_zsh h o false pw).trace = [] ∧
      Effect.outLine ("Zsh is already the default shell.") ∈ (setup_oh_my_zsh h o false pw).trace) ∧
    (shellIsZsh h.shellEnv = false →
      execCmds (setup_oh_my_zsh h o false pw).trace = ["chsh -s $(which zsh)"] ∧
      Effect.exec "chsh -s $(which zsh)" (effectiveInput "chsh -s $(which zsh)" pw) none
        ∈ (setup_oh_my_zsh h o false pw).trace) := by
  have hcmd : effectiveCommand "chsh -s $(which zsh)" pw = "chsh -s $(which zsh)" :=
    effectiveCommand_plain _ pw (by decide)
  have hrunEq :
      run o "chsh -s $(which zsh)" (some ("Failed to set Zsh as default shell.")) false pw none h.cwd =
        { trace := Effect.exec "chsh -s $(which zsh)" (effectiveInput "chsh -s $(which zsh)" pw) none ::
            (if (o "chsh -s $(which zsh)" (effectiveInput "chsh -s $(which zsh)" pw) none).stdout = ""
             then []
             else [Effect.outLine (pyStrip (o "chsh -s $(which zsh)" (effectiveInput "chsh -s $(which zsh)" pw) none).stdout)]),
          exited := none, returned := none } := by
    rw [run_not_dry]
    simp only [hcmd]
    rw [if_pos (hok _ _ _)]
  constructor
  · intro hs
    constructor
    · simp [setup_oh_my_zsh, chshBlock, is_command_available, hzsh, homz, hs, andThen, printOut,
        commandProbe, retNone, execCmds]
    · simp [setup_oh_my_zsh, chshBlock, is_command_available, hzsh, homz, hs, andThen, printOut,
        commandProbe, retNone]
  · intro hs
    constructor
    · simp [setup_oh_my_zsh, chshBlock, is_command_available, hzsh, homz, hs, hrunEq, andThen,
        printOut, commandProbe, retNone, execCmds, apply_ite (List.filterMap _)]
    · simp [setup_oh_my_zsh, chshBlock, is_command_available, hzsh, homz, hs, hrunEq, andThen,
        printOut, commandProbe, retNone]

/-- Witness for `chsh_skip_iff_shell_zsh`: with `SHELL=/usr/bin/zsh` no
command is executed; with `SHELL=/bin/bash` exactly the `chsh` command is
executed with the credential plus newline fed to its standard input. -/
theorem chsh_skip_iff_shell_zsh_witness :
    execCmds (setup_oh_my_zsh installedHost okOracle false (some ("hunter2"))).trace = [] ∧
    execCmds (setup_oh_my_zsh
      { installedHost with shellEnv := some ("/bin/bash") } okOracle false (some ("hunter2"))).trace =
      ["chsh -s $(which zsh)"] ∧
    Effect.exec "chsh -s $(which zsh)" (some ("hunter2" ++ "\n")) none
      ∈ (setup_oh_my_zsh
        { installedHost with shellEnv := some ("/bin/bash") } okOracle false (some ("hunter2"))).trace := by
  refine ⟨?_, ?_, ?_⟩
  · exact ((chsh_skip_iff_shell_zsh installedHost okOracle (some ("hunter2")) rfl rfl
      (fun _ _ _ => rfl)).1 (by decide)).1
  · exact ((chsh_skip_iff_shell_zsh { installedHost with shellEnv := some ("/bin/bash") }
      okOracle (some ("hunter2")) rfl rfl (fun _ _ _ => rfl)).2 (by decide)).1
  · have h := ((chsh_skip_iff_shell_zsh { installedHost with shellEnv := some ("/bin/bash") }
      okOracle (some ("hunter2")) rfl rfl (fun _ _ _ => rfl)).2 (by decide)).2
    simpa [@effectiveInput_chsh "chsh -s $(which zsh)" "hunter2" (by decide) (by decide) (by decide)] using h

/-- Claim C10: when the dotfiles directory is absent (here on a host where
stow is already installed, so the preceding stow sub-step executes
nothing), `setup_dotfiles_with_stow` prints an error to standard error and
returns normally — it executes no command, does not terminate the process,
and sequencing any continuation after it runs that continuation in full. -/
theorem dotfiles_missing_dir_returns_normally (h : Host) (o : Oracle) (pw : Option String)
    (hstow : h.commandAvailable "stow" = true)
    (hmiss : h.isDir (dotfiles_path h) = false) :
    (setup_dotfiles_with_stow h o false pw).trace =
      [Effect.outLine ("--- Setting up Dotfiles with Stow ---"),
       Effect.outLine ("--- Installing GNU Stow ---"),
       Effect.probe ("command -v stow"),
       Effect.outLine ("GNU Stow is already installed."),
       Effect.errLine ("Error: Dotfiles directory not found at " ++ dotfiles_path h)] ∧
    (setup_dotfiles_with_stow h o false pw).exited = none ∧
    execCmds (setup_dotfiles_with_stow h o false pw).trace = [] ∧
    (∀ rest : Outcome,
      (andThen (setup_dotfiles_with_stow h o false pw) rest).trace =
        (setup_dotfiles_with_stow h o false pw).trace ++ rest.trace ∧
      (andThen (setup_dotfiles_with_stow h o false pw) rest).exited = rest.exited) := by
  have htr : (setup_dotfiles_with_stow h o false pw).trace =
      [Effect.outLine ("--- Setting up Dotfiles with Stow ---"),
       Effect.outLine ("--- Installing GNU Stow ---"),
       Effect.probe ("command -v stow"),
       Effect.outLine ("GNU Stow is already installed."),
       Effect.errLine ("Error: Dotfiles directory not found at " ++ dotfiles_path h)] := by
    simp [setup_dotfiles_with_stow, install_stow, is_command_available, hstow, hmiss,
      andThen, printOut, printErr, commandProbe, retNone]
  have hex : (setup_dotfiles_with_stow h o false pw).exited = none := by
    simp [setup_dotfiles_with_stow, install_stow, is_command_available, hstow, hmiss,
      andThen, printOut, printErr, commandProbe, retNone]
  refine ⟨htr, hex, ?_, ?_⟩
  · rw [htr]
    simp [execCmds]
  · intro rest
    exact ⟨andThen_trace hex, andThen_exited hex⟩

/-- Witness for `dotfiles_missing_dir_returns_normally`. -/
theorem dotfiles_missing_dir_returns_normally_witness :
    (setup_dotfiles_with_stow
      { installedHost with isDir := fun _ => false } okOracle false none).exited = none ∧
    Effect.errLine ("Error: Dotfiles directory not found at /repo/dotfiles")
      ∈ (setup_dotfiles_with_stow
        { installedHost with isDir := fun _ => false } okOracle false none).trace := by
  have h := dotfiles_missing_dir_returns_normally
    { installedHost with isDir := fun _ => false } okOracle none rfl rfl
  refine ⟨h.2.1, ?_⟩
  rw [h.1]
  decide

end SetupCli
